import Mathlib

/-!
Verification of the grab-o-scope GUI core against its design notes.

The development shallowly embeds the two core components of the
`grab-o-scope-gui` source tree:

* the Navigation State Manager
  (`src/utils/navigation_manager.py`, mirrored in `src/gui/main_window.py`):
  `get_sorted_captures`, `get_navigation_state`, `get_previous_image`,
  `get_next_image`;
* the Capture Process Adapter and Orchestrator
  (`src/core/grabber_wrapper.py` and the `CaptureThread` / `capture_screen`
  logic of `src/gui/main_window.py`).

The filesystem is modelled as an explicit snapshot (`Fs`): a capture
directory that may or may not exist, the sequence of names `os.listdir`
enumerates (in enumeration order), a flag saying whether listing succeeds
(an unlistable directory makes `os.listdir` raise, modelled with `Except`),
and a finite table mapping absolute paths of regular files to their
modification times (`Nat`, seconds).  Python exceptions are modelled with
`Except String`; `None` with `Option`.  Python's `list.sort(key=...)` is a
stable sort by key; it is modelled with `List.insertionSort`, which is
likewise stable, over the key preorder `mtimeLE`.
-/

namespace GrabOScope

/-- Snapshot of the relevant filesystem state at query time. -/
structure Fs where
  captureDir : String
  dirExists : Bool
  listable : Bool
  listing : List String
  files : List (String × Nat)
deriving DecidableEq, Repr

/-- Model of `os.path.isfile`: the path is a listed regular file. -/
def isfile (fs : Fs) (p : String) : Bool := (fs.files.lookup p).isSome

/-- Model of `os.path.exists` for the file paths the navigation code probes. -/
def path_exists (fs : Fs) (p : String) : Bool := isfile fs p

/-- Model of `os.path.getmtime` on a path known to exist. -/
def getmtime (fs : Fs) (p : String) : Nat := ((fs.files.lookup p).getD 0)

/-- Model of `os.path.join(capture_dir, filename)`. -/
def joinPath (d n : String) : String := d ++ "/" ++ n

/-- Model of Python `str.lower()`. -/
def lowerStr (s : String) : String := String.mk (s.data.map Char.toLower)

/-- Model of Python `str.endswith(suffix)`. -/
def strEndsWith (s suffix : String) : Bool := suffix.data.isSuffixOf s.data

/-- Model of `filename.lower().endswith(('.png', '.jpg', '.jpeg', '.bmp'))`. -/
def hasImageExt (n : String) : Bool :=
  let l := lowerStr n
  strEndsWith l ".png" || strEndsWith l ".jpg" || strEndsWith l ".jpeg" || strEndsWith l ".bmp"

/-- Loop body of `get_sorted_captures`: a listed name qualifies when it has a
recognized image extension and joins to a regular file; it then contributes
its full path. -/
def qualify (fs : Fs) (n : String) : Option String :=
  if hasImageExt n then
    let p := joinPath fs.captureDir n
    if isfile fs p then some p else none
  else none

/-- The unsorted collection `image_files` built by the scan loop of
`get_sorted_captures`, in `os.listdir` enumeration order. -/
def scanFiles (fs : Fs) : List String := fs.listing.filterMap (qualify fs)

/-- The sort key preorder of `image_files.sort(key=lambda x: os.path.getmtime(x))`. -/
def mtimeLE (fs : Fs) : String → String → Prop := fun a b => getmtime fs a ≤ getmtime fs b

instance (fs : Fs) : DecidableRel (mtimeLE fs) := fun _ _ => Nat.decLe _ _

instance (fs : Fs) : IsTotal String (mtimeLE fs) := ⟨fun _ _ => Nat.le_total _ _⟩

instance (fs : Fs) : IsTrans String (mtimeLE fs) := ⟨fun _ _ _ => Nat.le_trans⟩

instance {ε α : Type} [DecidableEq ε] [DecidableEq α] : DecidableEq (Except ε α)
  | .ok a, .ok b =>
    if h : a = b then isTrue (by rw [h]) else isFalse (fun hc => by cases hc; exact h rfl)
  | .error a, .error b =>
    if h : a = b then isTrue (by rw [h]) else isFalse (fun hc => by cases hc; exact h rfl)
  | .ok _, .error _ => isFalse (fun hc => by cases hc)
  | .error _, .ok _ => isFalse (fun hc => by cases hc)

/-- Model of `NavigationManager.get_sorted_captures`.  A missing directory
returns `[]`; a directory that exists but cannot be enumerated makes
`os.listdir` raise (there is no handler in the source), modelled as
`.error`.  Otherwise the qualifying image files are stably sorted by
modification time, oldest first. -/
def get_sorted_captures (fs : Fs) : Except String (List String) :=
  if !fs.dirExists then .ok []
  else if !fs.listable then .error "OSError: cannot list capture directory"
  else .ok ((scanFiles fs).insertionSort (mtimeLE fs))

/-- The dict returned by `get_navigation_state`.  The Python dict carries a
`current_index` key only in the found-in-list branch; that key is modelled
as an `Option Nat` that is `none` in the other branches. -/
structure NavState where
  prev_enabled : Bool
  next_enabled : Bool
  info_text : String
  total_count : Nat
  current_index : Option Nat
deriving DecidableEq, Repr

/-- Python truthiness of the `current_image` attribute (`None` and the empty
string are falsy). -/
def truthy : Option String → Bool
  | none => false
  | some s => !(s == "")

/-- Model of `NavigationManager.get_navigation_state(current_image)`.  The
first component is the value of `self.current_image` after the call (the
argument overwrites the stored reference when it is not `None`, and the
overwrite happens before the directory scan, so it persists even when the
scan raises).  The second component is the returned dict, or the propagated
exception. -/
def get_navigation_state (fs : Fs) (stored : Option String) (arg : Option String) :
    Option String × Except String NavState :=
  let cur : Option String := match arg with | some c => some c | none => stored
  (cur,
    match get_sorted_captures fs with
    | .error e => .error e
    | .ok sorted_captures =>
      let total_count := sorted_captures.length
      if sorted_captures.isEmpty then
        .ok ⟨false, false, "", 0, none⟩
      else if !truthy cur || !path_exists fs (cur.getD "") then
        .ok ⟨decide (total_count > 0), decide (total_count > 0),
             "Total images: " ++ toString total_count ++ " | Use ← → arrow keys to navigate",
             total_count, none⟩
      else if !(sorted_captures.contains (cur.getD "")) then
        .ok ⟨true, true,
             "Total images: " ++ toString total_count ++ " | Use ← → arrow keys to navigate",
             total_count, none⟩
      else
        let current_index := sorted_captures.indexOf (cur.getD "")
        .ok ⟨decide (current_index > 0), decide (current_index < total_count - 1),
             "Image " ++ toString (current_index + 1) ++ " of " ++ toString total_count ++
               " | Use ← → arrow keys to navigate",
             total_count, some current_index⟩)

/-- Model of `NavigationManager.get_previous_image`.  The
current-image-not-in-list branch falls back to modification time `0` when
the stored path no longer exists on disk, and scans forward, remembering
the last image strictly older than the fallback time and stopping at the
first that is not (the `takeWhile`/`getLast?` below is exactly that loop). -/
def get_previous_image (fs : Fs) (stored : Option String) : Except String (Option String) :=
  if !truthy stored then
    match get_sorted_captures fs with
    | .error e => .error e
    | .ok s => .ok s.getLast?
  else
    match get_sorted_captures fs with
    | .error e => .error e
    | .ok sorted_captures =>
      if sorted_captures.isEmpty then .ok none
      else
        let cur := stored.getD ""
        if !(sorted_captures.contains cur) then
          let current_mtime : Nat := if path_exists fs cur then getmtime fs cur else 0
          .ok ((sorted_captures.takeWhile
                 (fun img => decide (getmtime fs img < current_mtime))).getLast?)
        else
          let current_index := sorted_captures.indexOf cur
          if current_index > 0 then .ok sorted_captures[current_index - 1]?
          else .ok none

/-- Model of `NavigationManager.get_next_image`.  The not-in-list branch uses
`float('inf')` as the fallback modification time when the stored path no
longer exists; that fallback is modelled as `none` (no finite time exceeds
it).  The loop walks the reversed list remembering the last image strictly
newer, stopping at the first that is not. -/
def get_next_image (fs : Fs) (stored : Option String) : Except String (Option String) :=
  if !truthy stored then
    match get_sorted_captures fs with
    | .error e => .error e
    | .ok s => .ok s.head?
  else
    match get_sorted_captures fs with
    | .error e => .error e
    | .ok sorted_captures =>
      if sorted_captures.isEmpty then .ok none
      else
        let cur := stored.getD ""
        if !(sorted_captures.contains cur) then
          let current_mtime : Option Nat :=
            if path_exists fs cur then some (getmtime fs cur) else none
          .ok ((sorted_captures.reverse.takeWhile
                 (fun img => match current_mtime with
                   | some m => decide (getmtime fs img > m)
                   | none => false)).getLast?)
        else
          let current_index := sorted_captures.indexOf cur
          if current_index < sorted_captures.length - 1 then .ok sorted_captures[current_index + 1]?
          else .ok none

/-- Boolean lexicographic order on strings (character by character), used to
state the spec's path tie-break claim. -/
def lexLtChars : List Char → List Char → Bool
  | [], [] => false
  | [], _ :: _ => true
  | _ :: _, [] => false
  | a :: as, b :: bs => if a < b then true else if a = b then lexLtChars as bs else false

/-- Lexicographic strictly-less on strings. -/
def strLtB (a b : String) : Bool := lexLtChars a.data b.data

/-! ## Capture adapter model (`grabber_wrapper.py`) -/

/-- The `argparse.Namespace` options object handed to `GrabberWrapper`. -/
structure Options where
  name : Option String
  filename : Option String
  auto_view : Bool
  verbose : Bool
  trace : Bool
deriving DecidableEq, Repr

/-- Python truthiness of an optional string option. -/
def optTruthy : Option String → Bool
  | none => false
  | some s => !(s == "")

/-- The subprocess command list built by `run_grab_o_scope`. -/
def buildCommand (pythonExe scriptPath : String) (o : Options) : List String :=
  [pythonExe, scriptPath]
  ++ (if optTruthy o.name then ["--name", o.name.getD ""] else [])
  ++ (if optTruthy o.filename then ["--filename", o.filename.getD ""] else [])
  ++ (if o.auto_view then ["--auto_view"] else [])
  ++ (if o.verbose then ["--verbose"] else [])
  ++ (if o.trace then ["--trace"] else [])

/-- Environment behaviour of one external capture process: either it starts
and emits the given raw output lines before exiting with the given code, or
spawning it fails (`subprocess.SubprocessError`) with the given message. -/
inductive ProcResult where
  | started (rawLines : List String) (exitCode : Nat)
  | startFailure (msg : String)
deriving DecidableEq, Repr

/-- Model of Python `str.rstrip()`: drop trailing whitespace. -/
def rstrip (s : String) : String :=
  String.mk (s.data.reverse.dropWhile Char.isWhitespace).reverse

/-- The `output_lines` accumulated by the read loop of `run_grab_o_scope`:
each raw line is right-stripped and kept only if non-empty.  These are also
exactly the per-line callback payloads. -/
def outputLinesOf (raw : List String) : List String :=
  (raw.map rstrip).filter (fun l => !(l == ""))

/-- Model of Python `xs[-5:]`. -/
def lastLines (n : Nat) (xs : List String) : List String := xs.drop (xs.length - n)

/-- The exception message raised for a non-zero exit code, after the generic
`except Exception` handler of `run_grab_o_scope` has wrapped it. -/
def failureMessage (exitCode : Nat) (raw : List String) : String :=
  "Error running grab_o_scope: Process failed with code " ++ toString exitCode ++ ": " ++
    String.intercalate "\n" (lastLines 5 (outputLinesOf raw))

/-- The initial line `run_grab_o_scope` sends to the output callback before
spawning the process. -/
def runningLineFor (pythonExe scriptPath : String) (o : Options) : String :=
  "Running: " ++ String.intercalate " " (buildCommand pythonExe scriptPath o)

/-- Model of `GrabberWrapper.run_grab_o_scope`.  Returns the sequence of
lines sent to the output callback, in emission order, together with either
the joined output (the Python return value) or the raised exception's
message.  A non-zero exit raises inside the `try`, is caught by the generic
handler, echoed to the callback and re-raised; a spawn failure is caught by
the `subprocess.SubprocessError` handler, echoed and re-raised. -/
def run_grab_o_scope (pythonExe scriptPath : String) (o : Options) (r : ProcResult) :
    List String × Except String String :=
  let runningLine := runningLineFor pythonExe scriptPath o
  match r with
  | .startFailure msg =>
    let error_msg := "Subprocess error: " ++ msg
    ([runningLine, error_msg], .error error_msg)
  | .started raw exitCode =>
    let output_lines := outputLinesOf raw
    if exitCode != 0 then
      let error_msg := failureMessage exitCode raw
      (runningLine :: output_lines ++ [error_msg], .error error_msg)
    else
      (runningLine :: output_lines, .ok (String.intercalate "\n" output_lines))

/-- Model of `GrabberWrapper.capture_screen(filename)`: a truthy `filename`
argument first overwrites `options.filename`; on success the (possibly
updated) destination path is returned, and any exception from
`run_grab_o_scope` propagates. -/
def capture_screen (pythonExe scriptPath : String) (o : Options) (fname : Option String)
    (r : ProcResult) : List String × Except String (Option String) :=
  let o := if optTruthy fname then { o with filename := fname } else o
  let res := run_grab_o_scope pythonExe scriptPath o r
  match res.2 with
  | .ok _result => (res.1, .ok o.filename)
  | .error e => (res.1, .error e)

/-- The terminal signal emitted by `CaptureThread.run`: exactly one of
`finished` or `error`. -/
inductive Terminal where
  | finished (filename : Option String)
  | errored (msg : String)
deriving DecidableEq, Repr

/-- Model of `CaptureThread.run`: the per-line `output` signals (in callback
order) followed by the single terminal signal. -/
def captureThreadRun (pythonExe scriptPath : String) (o : Options) (r : ProcResult) :
    List String × Terminal :=
  let res := capture_screen pythonExe scriptPath o none r
  match res.2 with
  | .ok f => (res.1, .finished f)
  | .error e => (res.1, .errored e)

/-! ## Main-window capture orchestration model (`main_window.py`) -/

/-- The slice of `MainWindow` state that `capture_screen` touches: whether a
capture thread is running, the running capture's pending work (its options
snapshot and the behaviour of its external process), the shared options
object, and the log. -/
structure MainWindowState where
  capture_thread_running : Bool
  inflight : Option (Options × ProcResult)
  options : Options
  logLines : List String
deriving DecidableEq, Repr

/-- The log line `MainWindow.capture_screen` emits when it rejects a request
while a capture thread is still running (sans the warning-sign emoji). -/
def alreadyInProgressLine : String := "Capture already in progress..."

/-- Model of `MainWindow.capture_screen`: if a capture thread is running the
request is rejected (a log line, no other change, returns without starting
anything); otherwise the destination filename is installed in the shared
options and a capture thread is started with the environment behaviour
`env`.  The boolean reports whether the request was accepted. -/
def capture_screen_step (st : MainWindowState) (newFname : String) (env : ProcResult) :
    MainWindowState × Bool :=
  if st.capture_thread_running then
    ({ st with logLines := st.logLines ++ [alreadyInProgressLine] }, false)
  else
    let opts := { st.options with filename := some newFname }
    ({ capture_thread_running := true,
       inflight := some (opts, env),
       options := opts,
       logLines := st.logLines ++
         [String.mk (List.replicate 50 '='), "Starting oscilloscope capture..."] }, true)

/-- The terminal outcome the in-flight capture (if any) will eventually
deliver, as a function of the state. -/
def eventualTerminal (pythonExe scriptPath : String) (st : MainWindowState) : Option Terminal :=
  st.inflight.map (fun p => (captureThreadRun pythonExe scriptPath p.1 p.2).2)

end GrabOScope

namespace GrabOScope

/-! ## Supporting lemmas -/

theorem gsc_ok_elim {fs : Fs} {l : List String} (h : get_sorted_captures fs = .ok l) :
    l = [] ∨ (fs.dirExists = true ∧ fs.listable = true ∧
      l = (scanFiles fs).insertionSort (mtimeLE fs)) := by
  unfold get_sorted_captures at h
  by_cases hd : fs.dirExists
  · by_cases hl : fs.listable
    · right
      refine ⟨hd, hl, ?_⟩
      simp only [hd, hl, Bool.not_true, Bool.false_eq_true, if_false, Except.ok.injEq] at h
      exact h.symm
    · simp only [hd, Bool.not_eq_true] at hl
      simp [hd, hl] at h
  · left
    simp only [Bool.not_eq_true] at hd
    simp only [hd, Bool.not_false, if_true, Except.ok.injEq] at h
    exact h.symm

theorem gsc_sorted {fs : Fs} {l : List String} (h : get_sorted_captures fs = .ok l) :
    l.Sorted (mtimeLE fs) := by
  rcases gsc_ok_elim h with h0 | ⟨-, -, hl⟩
  · subst h0; exact List.sorted_nil
  · subst hl; exact List.sorted_insertionSort _ _

theorem gsc_mem_scanFiles {fs : Fs} {l : List String} {c : String}
    (h : get_sorted_captures fs = .ok l) (hc : c ∈ l) : c ∈ scanFiles fs := by
  rcases gsc_ok_elim h with h0 | ⟨-, -, hl⟩
  · subst h0; cases hc
  · subst hl; exact (List.mem_insertionSort _).mp hc

theorem scanFiles_mem_spec {fs : Fs} {c : String} (hc : c ∈ scanFiles fs) :
    isfile fs c = true ∧ 0 < c.length := by
  unfold scanFiles at hc
  rcases List.mem_filterMap.mp hc with ⟨n, -, hq⟩
  unfold qualify at hq
  by_cases he : hasImageExt n
  · simp only [he, if_true] at hq
    by_cases hf : isfile fs (joinPath fs.captureDir n)
    · simp only [hf, if_true, Option.some.injEq] at hq
      subst hq
      refine ⟨hf, ?_⟩
      have hslash : ("/" : String).length = 1 := by decide
      have : (joinPath fs.captureDir n).length =
          fs.captureDir.length + 1 + n.length := by
        simp [joinPath, String.length_append, hslash]
      omega
    · simp [hf] at hq
  · simp [he] at hq

theorem gsc_mem_isfile {fs : Fs} {l : List String} {c : String}
    (h : get_sorted_captures fs = .ok l) (hc : c ∈ l) : isfile fs c = true :=
  (scanFiles_mem_spec (gsc_mem_scanFiles h hc)).1

theorem gsc_mem_truthy {fs : Fs} {l : List String} {c : String}
    (h : get_sorted_captures fs = .ok l) (hc : c ∈ l) : truthy (some c) = true := by
  have hlen := (scanFiles_mem_spec (gsc_mem_scanFiles h hc)).2
  have hne : c ≠ "" := by
    intro h0
    subst h0
    simp at hlen
  simp [truthy, hne]

theorem sorted_head_le {fs : Fs} {l : List String} (hs : l.Sorted (mtimeLE fs))
    (hne : l ≠ []) : ∀ x ∈ l, getmtime fs (l.head hne) ≤ getmtime fs x := by
  cases l with
  | nil => cases hne rfl
  | cons a t =>
    intro x hx
    rcases List.mem_cons.mp hx with h0 | h0
    · subst h0; exact Nat.le_refl _
    · exact List.rel_of_sorted_cons hs x h0

theorem sorted_le_getLast {fs : Fs} {l : List String} (hs : l.Sorted (mtimeLE fs))
    (hne : l ≠ []) : ∀ x ∈ l, getmtime fs x ≤ getmtime fs (l.getLast hne) := by
  induction l with
  | nil => cases hne rfl
  | cons a t ih =>
    intro x hx
    cases t with
    | nil =>
      rcases List.mem_cons.mp hx with h0 | h0
      · subst h0; exact Nat.le_refl _
      · cases h0
    | cons b t2 =>
      rw [List.getLast_cons (by simp)]
      rcases List.mem_cons.mp hx with h0 | h0
      · subst h0
        exact List.rel_of_sorted_cons hs _ (List.getLast_mem (by simp))
      · exact ih hs.of_cons (by simp) x h0

end GrabOScope

namespace GrabOScope

/-! ## Concrete fixtures -/

/-- Directory fixture: two image files with equal modification times whose
enumeration order disagrees with lexicographic path order, plus a non-image
file. -/
def fsTie : Fs :=
  { captureDir := "cap", dirExists := true, listable := true,
    listing := ["b.png", "a.png", "note.txt"],
    files := [("cap/b.png", 5), ("cap/a.png", 5), ("cap/note.txt", 1)] }

/-- Directory fixture: images `cap/a.png` (mtime 1) and `cap/c.png` (mtime 3). -/
def fsAC : Fs :=
  { captureDir := "cap", dirExists := true, listable := true,
    listing := ["a.png", "c.png"],
    files := [("cap/a.png", 1), ("cap/c.png", 3)] }

/-- Directory fixture: a capture directory that exists but cannot be listed. -/
def fsDenied : Fs :=
  { captureDir := "cap", dirExists := true, listable := false,
    listing := ["a.png"], files := [("cap/a.png", 1)] }

/-- Directory fixture: the capture directory does not exist. -/
def fsMissing : Fs :=
  { captureDir := "cap", dirExists := false, listable := true,
    listing := [], files := [] }

/-- Options fixture used by the capture-side witnesses. -/
def optsFix : Options := ⟨none, some "cap/x.png", false, true, true⟩

/-- Main-window state fixture with a capture thread running. -/
def stRunning : MainWindowState :=
  ⟨true, some (optsFix, .started ["done"] 0), optsFix, []⟩

/-! ## C1 -/

/-- C1 (counterexample): `get_sorted_captures` does NOT break modification-time
ties by path.  In `fsTie` both image files have mtime 5 and `os.listdir`
enumerates `b.png` before `a.png`; the stable sort keeps `cap/b.png` first
even though `cap/a.png` is the lexicographically smaller path, so the claimed
(mtime, path) order is violated. -/
theorem c1_tie_break_counterexample :
    get_sorted_captures fsTie = .ok ["cap/b.png", "cap/a.png"] ∧
    getmtime fsTie "cap/b.png" = getmtime fsTie "cap/a.png" ∧
    strLtB "cap/a.png" "cap/b.png" = true := by decide

/-- C1 (amended): for every existing, listable directory, `get_sorted_captures`
returns exactly the qualifying image files (a permutation of the scan),
sorted non-decreasing by modification time; entries with equal modification
time keep their `os.listdir` enumeration order (the sort is stable), which
need not be lexicographic path order. -/
theorem c1_amended_sorted_by_mtime (fs : Fs) (l : List String)
    (hd : fs.dirExists = true) (hl : fs.listable = true)
    (h : get_sorted_captures fs = .ok l) :
    l.Perm (scanFiles fs) ∧
    l.Sorted (mtimeLE fs) ∧
    ∀ t : Nat, l.filter (fun x => getmtime fs x == t) =
      (scanFiles fs).filter (fun x => getmtime fs x == t) := by
  have hEq : l = (scanFiles fs).insertionSort (mtimeLE fs) := by
    unfold get_sorted_captures at h
    simp only [hd, hl, Bool.not_true, Bool.false_eq_true, if_false, Except.ok.injEq] at h
    exact h.symm
  subst hEq
  refine ⟨List.perm_insertionSort _ _, List.sorted_insertionSort _ _, ?_⟩
  intro t
  set s := scanFiles fs with hs
  set p : String → Bool := fun x => getmtime fs x == t with hp
  have hFsub : List.Sublist (s.filter p) s := List.filter_sublist s
  have hFpair : (s.filter p).Pairwise (mtimeLE fs) := by
    apply List.pairwise_of_forall_mem_list
    intro a ha b hb
    have ha2 : getmtime fs a = t := by
      have := (List.mem_filter.mp ha).2
      simpa [hp] using this
    have hb2 : getmtime fs b = t := by
      have := (List.mem_filter.mp hb).2
      simpa [hp] using this
    unfold mtimeLE
    omega
  have hstab : List.Sublist (s.filter p) (s.insertionSort (mtimeLE fs)) :=
    List.sublist_insertionSort hFpair hFsub
  have hsat : ∀ a ∈ s.filter p, p a = true := fun a ha => (List.mem_filter.mp ha).2
  have h2 : (s.filter p).filter p = s.filter p := List.filter_eq_self.mpr hsat
  have h3 : List.Sublist (s.filter p) ((s.insertionSort (mtimeLE fs)).filter p) := by
    have h4 := hstab.filter p
    rwa [h2] at h4
  have hperm : List.Perm ((s.insertionSort (mtimeLE fs)).filter p) (s.filter p) :=
    (List.perm_insertionSort (mtimeLE fs) s).filter p
  exact (h3.eq_of_length hperm.length_eq.symm).symm

/-- Witness for `c1_amended_sorted_by_mtime` at the concrete directory
`fsTie`. -/
theorem c1_amended_sorted_by_mtime_witness :
    (["cap/b.png", "cap/a.png"] : List String).Perm (scanFiles fsTie) ∧
    (["cap/b.png", "cap/a.png"] : List String).filter (fun x => getmtime fsTie x == 5) =
      (scanFiles fsTie).filter (fun x => getmtime fsTie x == 5) :=
  ⟨(c1_amended_sorted_by_mtime fsTie ["cap/b.png", "cap/a.png"] rfl rfl (by decide)).1,
   (c1_amended_sorted_by_mtime fsTie ["cap/b.png", "cap/a.png"] rfl rfl (by decide)).2.2 5⟩

/-! ## C2 -/

/-- C2 (failing input): with the current artifact `cap/b.png` deleted from
disk and remaining artifacts `cap/a.png` (older, mtime 1) and `cap/c.png`
(newer, mtime 3), the code returns NO previous and NO next image instead of
the nearest older/newer artifact: since the deleted path fails the
`os.path.exists` check, `get_previous_image` substitutes modification time 0
(nothing is strictly older) and `get_next_image` substitutes infinity
(nothing is strictly newer), contradicting the claim, the spec's policy
table and the source's own comment ("If current image was deleted/modified,
find the closest one by timestamp"). -/
theorem c2_deleted_current_returns_none :
    path_exists fsAC "cap/b.png" = false ∧
    get_previous_image fsAC (some "cap/b.png") = .ok none ∧
    get_next_image fsAC (some "cap/b.png") = .ok none := by decide

/-! ## C3 -/

/-- C3: while a capture thread is running, a second `capture_screen` request
is rejected immediately (the call returns `false` after appending only the
"Capture already in progress" log line), it is not queued (the in-flight
capture record is unchanged, and no new thread or options change occurs:
the state is unchanged except for the log), and the first capture's
eventual terminal outcome is unchanged. -/
theorem c3_second_request_rejected (pythonExe scriptPath : String) (st : MainWindowState)
    (newFname : String) (env : ProcResult) (h : st.capture_thread_running = true) :
    (capture_screen_step st newFname env).2 = false ∧
    (capture_screen_step st newFname env).1 =
      { st with logLines := st.logLines ++ [alreadyInProgressLine] } ∧
    (capture_screen_step st newFname env).1.capture_thread_running = true ∧
    (capture_screen_step st newFname env).1.inflight = st.inflight ∧
    (capture_screen_step st newFname env).1.options = st.options ∧
    eventualTerminal pythonExe scriptPath (capture_screen_step st newFname env).1 =
      eventualTerminal pythonExe scriptPath st := by
  refine ⟨?_, ?_, ?_, ?_, ?_, ?_⟩ <;> simp [capture_screen_step, h, eventualTerminal]

/-- Witness for `c3_second_request_rejected` at a concrete running state. -/
theorem c3_second_request_rejected_witness :
    (capture_screen_step stRunning "cap/new.png" (.started [] 0)).2 = false ∧
    eventualTerminal "py" "gos.py" (capture_screen_step stRunning "cap/new.png" (.started [] 0)).1 =
      eventualTerminal "py" "gos.py" stRunning :=
  ⟨(c3_second_request_rejected "py" "gos.py" stRunning "cap/new.png" (.started [] 0) rfl).1,
   (c3_second_request_rejected "py" "gos.py" stRunning "cap/new.png" (.started [] 0) rfl).2.2.2.2.2⟩

end GrabOScope

namespace GrabOScope

/-! ## C4 -/

/-- C4: the adapter maps the external process result to the outcome exactly
as claimed.  Exit code 0 yields success carrying the request's destination
path (`options.filename`); a non-zero exit code yields a failure whose
diagnostic tail — the text after the colon in `failureMessage` — is exactly
the last 5 output lines; a process that fails to start yields a failure
built only from the startup error, with an empty output tail. -/
theorem c4_outcome_mapping (pythonExe scriptPath : String) (o : Options)
    (raw : List String) (exitCode : Nat) (msg : String) (hc : exitCode ≠ 0) :
    (capture_screen pythonExe scriptPath o none (.started raw 0)).2 = .ok o.filename ∧
    (capture_screen pythonExe scriptPath o none (.started raw exitCode)).2 =
      .error ("Error running grab_o_scope: Process failed with code " ++ toString exitCode ++
        ": " ++ String.intercalate "\n" (lastLines 5 (outputLinesOf raw))) ∧
    (capture_screen pythonExe scriptPath o none (.startFailure msg)).2 =
      .error ("Subprocess error: " ++ msg) := by
  refine ⟨?_, ?_, ?_⟩ <;>
    simp [capture_screen, run_grab_o_scope, optTruthy, failureMessage, hc]

/-- Witness for `c4_outcome_mapping` at concrete options and process results. -/
theorem c4_outcome_mapping_witness :
    (capture_screen "py" "gos.py" optsFix none (.started ["a", "b"] 0)).2 =
      .ok (some "cap/x.png") ∧
    (capture_screen "py" "gos.py" optsFix none (.started ["a", "b"] 2)).2 =
      .error ("Error running grab_o_scope: Process failed with code " ++ toString 2 ++
        ": " ++ String.intercalate "\n" (lastLines 5 (outputLinesOf ["a", "b"]))) ∧
    (capture_screen "py" "gos.py" optsFix none (.startFailure "boom")).2 =
      .error ("Subprocess error: " ++ "boom") := by
  have H := c4_outcome_mapping "py" "gos.py" optsFix ["a", "b"] 2 "boom" (by decide)
  exact ⟨H.1, H.2.1, H.2.2⟩

/-! ## C5 -/

/-- C5 (counterexample): the progress events delivered for a capture are NOT
exactly the lines emitted by the external process: a command-announcement
line is prepended and blank lines (after right-stripping) are dropped.
Here the process emits `["a ", "", "b"]` but the delivered events are the
`Running:` line followed by `"a"` and `"b"`. -/
theorem c5_events_not_raw_counterexample :
    (captureThreadRun "py" "gos.py" optsFix (.started ["a ", "", "b"] 0)).1 =
      ["Running: py gos.py --filename cap/x.png --verbose --trace", "a", "b"] ∧
    (captureThreadRun "py" "gos.py" optsFix (.started ["a ", "", "b"] 0)).1 ≠
      ["a ", "", "b"] := by decide

/-- C5 (amended): the progress events delivered for a capture are: one
command-announcement line, then each right-stripped non-empty process line
in emission order (blank lines dropped, nothing reordered or coalesced),
then — on failure — one error-message line; the terminal outcome is
delivered exactly once, after all progress events. -/
theorem c5_amended_event_stream (pythonExe scriptPath : String) (o : Options)
    (raw : List String) (exitCode : Nat) (msg : String) (hc : exitCode ≠ 0) :
    captureThreadRun pythonExe scriptPath o (.started raw 0) =
      (runningLineFor pythonExe scriptPath o :: outputLinesOf raw, .finished o.filename) ∧
    captureThreadRun pythonExe scriptPath o (.started raw exitCode) =
      (runningLineFor pythonExe scriptPath o ::
         (outputLinesOf raw ++ [failureMessage exitCode raw]),
       .errored (failureMessage exitCode raw)) ∧
    captureThreadRun pythonExe scriptPath o (.startFailure msg) =
      ([runningLineFor pythonExe scriptPath o, "Subprocess error: " ++ msg],
       .errored ("Subprocess error: " ++ msg)) := by
  refine ⟨?_, ?_, ?_⟩ <;>
    simp [captureThreadRun, capture_screen, run_grab_o_scope, optTruthy, hc]

/-- Witness for `c5_amended_event_stream` at concrete options and process
results. -/
theorem c5_amended_event_stream_witness :
    captureThreadRun "py" "gos.py" optsFix (.started ["a ", "", "b"] 0) =
      (runningLineFor "py" "gos.py" optsFix :: outputLinesOf ["a ", "", "b"],
       .finished (some "cap/x.png")) ∧
    captureThreadRun "py" "gos.py" optsFix (.startFailure "boom") =
      ([runningLineFor "py" "gos.py" optsFix, "Subprocess error: " ++ "boom"],
       .errored ("Subprocess error: " ++ "boom")) := by
  have H := c5_amended_event_stream "py" "gos.py" optsFix ["a ", "", "b"] 7 "boom" (by decide)
  exact ⟨H.1, H.2.2⟩

/-! ## C6 -/

/-- C6 (counterexample): a capture directory that exists but cannot be
listed does NOT produce an empty sequence with `totalCount = 0`: the
`os.listdir` failure propagates out of `get_sorted_captures`,
`get_navigation_state` and `get_previous_image` as an exception, because
the source only handles the directory-missing case. -/
theorem c6_listing_failure_propagates_counterexample :
    get_sorted_captures fsDenied = .error "OSError: cannot list capture directory" ∧
    (get_navigation_state fsDenied none none).2 =
      .error "OSError: cannot list capture directory" ∧
    get_previous_image fsDenied none = .error "OSError: cannot list capture directory" := by
  decide

/-- C6 (amended): only a missing capture directory degrades gracefully —
`get_sorted_captures` then returns `[]` and `get_navigation_state` reports
`totalCount = 0` with both directions unavailable; when the directory
exists but cannot be listed, the failure propagates to the caller as an
exception rather than an empty listing. -/
theorem c6_amended_store_failures (fs : Fs) (stored arg : Option String) :
    (fs.dirExists = false →
      get_sorted_captures fs = .ok [] ∧
      (get_navigation_state fs stored arg).2 = .ok ⟨false, false, "", 0, none⟩) ∧
    (fs.dirExists = true → fs.listable = false →
      get_sorted_captures fs = .error "OSError: cannot list capture directory" ∧
      (get_navigation_state fs stored arg).2 =
        .error "OSError: cannot list capture directory") := by
  constructor
  · intro hd
    have h1 : get_sorted_captures fs = .ok [] := by simp [get_sorted_captures, hd]
    exact ⟨h1, by simp [get_navigation_state, h1]⟩
  · intro hd hl
    have h1 : get_sorted_captures fs = .error "OSError: cannot list capture directory" := by
      simp [get_sorted_captures, hd, hl]
    exact ⟨h1, by simp [get_navigation_state, h1]⟩

/-- Witness for `c6_amended_store_failures` at the concrete directories
`fsMissing` and `fsDenied`. -/
theorem c6_amended_store_failures_witness :
    get_sorted_captures fsMissing = .ok [] ∧
    get_sorted_captures fsDenied = .error "OSError: cannot list capture directory" :=
  ⟨((c6_amended_store_failures fsMissing none none).1 rfl).1,
   ((c6_amended_store_failures fsDenied none none).2 rfl rfl).1⟩

end GrabOScope

namespace GrabOScope

/-! ## C7 -/

/-- C7: on a non-empty directory with no current artifact set, both
navigation directions are reported available, `get_previous_image` returns
the last entry of the ordered listing — which has maximal modification time
(the newest artifact) — and `get_next_image` returns the first entry, which
has minimal modification time (the oldest artifact). -/
theorem c7_unset_cursor (fs : Fs) (l : List String)
    (h : get_sorted_captures fs = .ok l) (hne : l ≠ []) :
    ((get_navigation_state fs none none).2 =
      .ok ⟨true, true,
        "Total images: " ++ toString l.length ++ " | Use ← → arrow keys to navigate",
        l.length, none⟩) ∧
    get_previous_image fs none = .ok (some (l.getLast hne)) ∧
    get_next_image fs none = .ok (some (l.head hne)) ∧
    (∀ x ∈ l, getmtime fs x ≤ getmtime fs (l.getLast hne)) ∧
    (∀ x ∈ l, getmtime fs (l.head hne) ≤ getmtime fs x) := by
  have hs := gsc_sorted h
  have hlen : 0 < l.length := List.length_pos.mpr hne
  have hie : l.isEmpty = false := by simp [List.isEmpty_iff, hne]
  refine ⟨?_, ?_, ?_, sorted_le_getLast hs hne, sorted_head_le hs hne⟩
  · simp [get_navigation_state, h, hie, truthy, hlen]
  · simp [get_previous_image, truthy, h, List.getLast?_eq_getLast l hne]
  · simp [get_next_image, truthy, h, List.head?_eq_head hne]

/-- Witness for `c7_unset_cursor` at the concrete directory `fsAC`. -/
theorem c7_unset_cursor_witness :
    get_previous_image fsAC none = .ok (some "cap/c.png") ∧
    get_next_image fsAC none = .ok (some "cap/a.png") := by
  have H := c7_unset_cursor fsAC ["cap/a.png", "cap/c.png"] (by decide) (by decide)
  constructor
  · rw [H.2.1]; decide
  · rw [H.2.2.1]; decide

/-! ## C8 -/

/-- C8: when the current artifact is found in the ordered listing at index
`i` of `n`, `get_navigation_state` reports `prev_enabled = (0 < i)`,
`next_enabled = (i < n - 1)` and `current_index = i`, `get_previous_image`
returns the entry at index `i - 1` (or nothing when `i = 0`), and
`get_next_image` returns the entry at index `i + 1` (or nothing when
`i = n - 1`). -/
theorem c8_found_in_list (fs : Fs) (l : List String) (c : String)
    (h : get_sorted_captures fs = .ok l) (hc : c ∈ l) :
    ((get_navigation_state fs (some c) none).2 =
      .ok ⟨decide (0 < l.indexOf c), decide (l.indexOf c < l.length - 1),
        "Image " ++ toString (l.indexOf c + 1) ++ " of " ++ toString l.length ++
          " | Use ← → arrow keys to navigate",
        l.length, some (l.indexOf c)⟩) ∧
    get_previous_image fs (some c) =
      .ok (if 0 < l.indexOf c then l[l.indexOf c - 1]? else none) ∧
    get_next_image fs (some c) =
      .ok (if l.indexOf c < l.length - 1 then l[l.indexOf c + 1]? else none) := by
  have hne : l ≠ [] := by rintro rfl; cases hc
  have hie : l.isEmpty = false := by simp [List.isEmpty_iff, hne]
  have htr : truthy (some c) = true := gsc_mem_truthy h hc
  have hex : path_exists fs c = true := gsc_mem_isfile h hc
  have hcont : l.contains c = true := List.elem_eq_true_of_mem hc
  refine ⟨?_, ?_, ?_⟩
  · simp [get_navigation_state, h, hie, htr, hex, hcont, hc]
  · by_cases hp : 0 < l.indexOf c <;>
      simp [get_previous_image, h, hie, htr, hex, hcont, hc, hp]
  · by_cases hp : l.indexOf c < l.length - 1 <;>
      simp [get_next_image, h, hie, htr, hex, hcont, hc, hp]

/-- Witness for `c8_found_in_list` at `fsAC` with current `cap/a.png`
(index 0 of 2): no previous image, next is `cap/c.png`. -/
theorem c8_found_in_list_witness :
    get_previous_image fsAC (some "cap/a.png") = .ok none ∧
    get_next_image fsAC (some "cap/a.png") = .ok (some "cap/c.png") := by
  have H := c8_found_in_list fsAC ["cap/a.png", "cap/c.png"] "cap/a.png"
    (by decide) (by decide)
  constructor
  · rw [H.2.1]; decide
  · rw [H.2.2]; decide

end GrabOScope

namespace GrabOScope

/-! ## C9 -/

/-- C9 (counterexample): the position label is NOT exactly
`"Image {i+1} of {n}"`: the source appends a usage hint, producing e.g.
`"Image 1 of 2 | Use ← → arrow keys to navigate"` for the current artifact
at index 0 of 2. -/
theorem c9_label_counterexample :
    (get_navigation_state fsAC none (some "cap/a.png")).2 =
      .ok ⟨false, true, "Image 1 of 2 | Use ← → arrow keys to navigate", 2, some 0⟩ ∧
    "Image 1 of 2 | Use ← → arrow keys to navigate" ≠ "Image 1 of 2" := by decide

/-- C9 (amended): the label in `info_text` is
`"Image {i+1} of {n} | Use ← → arrow keys to navigate"` when the current
artifact is found at index i of n, `"Total images: {n} | Use ← → arrow keys
to navigate"` when no current artifact is set or it is not found in a
non-empty listing, and the empty string when n = 0. -/
theorem c9_amended_labels (fs : Fs) (l : List String)
    (h : get_sorted_captures fs = .ok l) :
    (l = [] → ∀ stored arg, (get_navigation_state fs stored arg).2 =
        .ok ⟨false, false, "", 0, none⟩) ∧
    (∀ c, c ∈ l → (get_navigation_state fs (some c) none).2 =
      .ok ⟨decide (0 < l.indexOf c), decide (l.indexOf c < l.length - 1),
        "Image " ++ toString (l.indexOf c + 1) ++ " of " ++ toString l.length ++
          " | Use ← → arrow keys to navigate",
        l.length, some (l.indexOf c)⟩) ∧
    (l ≠ [] → ∀ copt : Option String, (∀ c, copt = some c → c ∉ l) →
      (get_navigation_state fs copt none).2 =
        .ok ⟨true, true,
          "Total images: " ++ toString l.length ++ " | Use ← → arrow keys to navigate",
          l.length, none⟩) := by
  refine ⟨?_, ?_, ?_⟩
  · rintro rfl stored arg
    simp [get_navigation_state, h]
  · intro c hc
    have hne : l ≠ [] := by rintro rfl; cases hc
    have hie : l.isEmpty = false := by simp [List.isEmpty_iff, hne]
    have htr : truthy (some c) = true := gsc_mem_truthy h hc
    have hex : path_exists fs c = true := gsc_mem_isfile h hc
    have hcont : l.contains c = true := List.elem_eq_true_of_mem hc
    simp [get_navigation_state, h, hie, htr, hex, hcont, hc]
  · intro hne copt hnotin
    have hie : l.isEmpty = false := by simp [List.isEmpty_iff, hne]
    have hlen : 0 < l.length := List.length_pos.mpr hne
    match copt with
    | none =>
      simp [get_navigation_state, h, hie, truthy, hlen]
    | some c =>
      have hnc : c ∉ l := hnotin c rfl
      by_cases hcond : truthy (some c) = true ∧ path_exists fs c = true
      · have hcont : l.contains c = false := by
          rcases Bool.eq_false_or_eq_true (l.contains c) with hf | ht
          · exact absurd (List.mem_of_elem_eq_true hf) hnc
          · exact ht
        simp [get_navigation_state, h, hie, hcond.1, hcond.2, hcont, hnc, hlen]
      · have hor : (!truthy (some c) || !path_exists fs c) = true := by
          rcases not_and_or.mp hcond with h1 | h1
          · simp only [Bool.not_eq_true] at h1
            simp [h1]
          · simp only [Bool.not_eq_true] at h1
            simp [h1]
        simp [get_navigation_state, h, hie, hor, hlen]

/-- Witness for `c9_amended_labels`, exercising the empty-directory label at
the concrete missing-directory fixture. -/
theorem c9_amended_labels_witness :
    (get_navigation_state fsMissing none none).2 = .ok ⟨false, false, "", 0, none⟩ :=
  (c9_amended_labels fsMissing [] (by decide)).1 rfl none none

/-! ## C10 -/

/-- C10: the navigation manager retains the current-artifact reference
across calls: `get_navigation_state` with a non-none argument overwrites
the stored `current_image` (and answers exactly as if that value had
already been stored), a call with a `none` argument leaves the stored
reference unchanged and answers against it, and once the stored reference
is set no call returns it to `none` (`get_previous_image` and
`get_next_image` never write it at all — in this embedding they are pure
reads of the stored reference). -/
theorem c10_stored_reference (fs : Fs) (stored arg : Option String) (c c0 : String) :
    (get_navigation_state fs stored (some c)).1 = some c ∧
    (get_navigation_state fs stored none).1 = stored ∧
    get_navigation_state fs stored (some c) = get_navigation_state fs (some c) none ∧
    get_navigation_state fs (some c0) none = get_navigation_state fs (some c0) (some c0) ∧
    (get_navigation_state fs (some c0) arg).1 ≠ none := by
  refine ⟨rfl, rfl, rfl, rfl, ?_⟩
  cases arg <;> simp [get_navigation_state]

end GrabOScope
